import Mathlib

/-!
Verification of the sandbox tool layer of this repository
(`backend/agent/tools/sb_files_tool.py`, `sb_shell_tool.py`,
`sb_expose_tool.py`, `sb_deploy_tool.py`, over `backend/sandbox/sandbox.py`).

The Python tool methods are embedded as total Lean functions.  Calls into the
external sandbox SDK (filesystem, process execution, port forwarding) are
modelled by explicit state passing plus a fault oracle: each SDK call either
returns its normal result or raises an exception carrying a message, and a
raised exception is an `Except.error` value that propagates to the nearest
enclosing `try`/`except` of the embedded method.  Python strings are modelled
as `List Char` at the level of the primitive string operations and as `String`
at the tool interfaces.
-/

namespace ManusMini

/-! ### Python string primitives -/

/-- Python `str.expandtabs()` with the default tab size 8: a tab advances the
column to the next multiple of 8; newline and carriage return reset the
column. -/
def expandtabsAux : Nat → List Char → List Char
  | _, [] => []
  | col, c :: rest =>
    if c = '\t' then
      let n := 8 - col % 8
      List.replicate n ' ' ++ expandtabsAux (col + n) rest
    else if c = '\n' ∨ c = '\r' then
      c :: expandtabsAux 0 rest
    else
      c :: expandtabsAux (col + 1) rest

def expandtabs (s : List Char) : List Char := expandtabsAux 0 s

def expandtabsS (s : String) : String := String.mk (expandtabs s.data)

/-- Count of non-overlapping occurrences of a non-empty pattern, scanning left
to right, as Python `str.count` does for non-empty arguments. -/
def countFrom (pat : List Char) (s : List Char) : Nat :=
  match s with
  | [] => 0
  | c :: rest =>
    if pat ≠ [] ∧ pat.isPrefixOf (c :: rest) then
      1 + countFrom pat (rest.drop (pat.length - 1))
    else
      countFrom pat rest
termination_by s.length
decreasing_by
  · simp only [List.length_drop, List.length_cons]
    omega
  · simp only [List.length_cons]
    omega

/-- Python `s.count(pat)`: for the empty pattern Python returns `len(s) + 1`;
otherwise the number of non-overlapping occurrences. -/
def pyCount (s pat : List Char) : Nat :=
  if pat = [] then s.length + 1 else countFrom pat s

/-- Python `s.replace(pat, rep)`: every non-overlapping occurrence of `pat` is
replaced by `rep`, scanning left to right; for the empty pattern `rep` is
inserted between every character and at both ends. -/
def replaceFrom (pat rep : List Char) (s : List Char) : List Char :=
  match s with
  | [] => if pat = [] then rep else []
  | c :: rest =>
    if pat ≠ [] ∧ pat.isPrefixOf (c :: rest) then
      rep ++ replaceFrom pat rep (rest.drop (pat.length - 1))
    else if pat = [] then
      rep ++ c :: replaceFrom pat rep rest
    else
      c :: replaceFrom pat rep rest
termination_by s.length
decreasing_by
  · simp only [List.length_drop, List.length_cons]
    omega
  · simp only [List.length_cons]
    omega
  · simp only [List.length_cons]
    omega

def pyReplace (s pat rep : List Char) : List Char := replaceFrom pat rep s

/-- Python `s.split(sep)` for the one-character separator, keeping empty
parts: `split('\n')` in `str_replace`. -/
def splitOnChar (sep : Char) : List Char → List (List Char)
  | [] => [[]]
  | c :: rest =>
    let r := splitOnChar sep rest
    if c = sep then
      [] :: r
    else
      match r with
      | [] => [[c]]
      | l :: ls => (c :: l) :: ls

/-- Python `pat in s` substring test. -/
def pyIn (pat s : List Char) : Bool := decide (pat <:+: s)

/-- Python `s.strip('/')`: remove leading and trailing slash characters. -/
def stripSlashes (s : String) : String :=
  String.mk (((s.data.dropWhile (· = '/')).reverse.dropWhile (· = '/')).reverse)

/-- Python `sep.join(parts)` for a one-character separator, at the level of
character lists. -/
def joinWithChar (c : Char) : List (List Char) → List Char
  | [] => []
  | [l] => l
  | l :: ls => l ++ c :: joinWithChar c ls

/-- Python `repr` of a list of ints, as interpolated into an f-string:
`[1, 3]`. -/
def pyReprNatList (l : List Nat) : String :=
  "[" ++ String.intercalate ", " (l.map toString) ++ "]"

/-- A Python value passed where an `int` is expected: the schema layer may
deliver either an actual integer or a string. -/
inductive PyVal where
  | vint (n : Int)
  | vstr (s : String)
deriving DecidableEq, Repr

/-- How the value prints inside an f-string. -/
def PyVal.show : PyVal → String
  | .vint n => toString n
  | .vstr s => s

/-- Python `int(x)` on such a value: identity on integers; on a string, parse
an optional sign followed by one or more digits (surrounding whitespace
stripped), raising `ValueError` otherwise. -/
def pyInt : PyVal → Except String Int
  | .vint n => .ok n
  | .vstr s =>
    let t := (s.data.dropWhile (· = ' ')).reverse.dropWhile (· = ' ') |>.reverse
    let (sign, digits) :=
      match t with
      | '-' :: rest => ((-1 : Int), rest)
      | '+' :: rest => ((1 : Int), rest)
      | _ => ((1 : Int), t)
    if digits ≠ [] ∧ digits.all (·.isDigit) then
      .ok (sign * (digits.foldl (fun acc c => acc * 10 + (c.toNat - 48)) 0 : Nat))
    else
      .error ("invalid literal for int() with base 10: " ++ s)

/-! ### ToolResult

Modelled from the spec: the `ToolResult` type and the `success_response` /
`fail_response` helpers live in `agentpress.tool`, which is not among the
provided sources.  Per the spec, a ToolResult is `{success: bool, payload:
structured data | error message}`; `fail_response` wraps an error message
with `success = false` and `success_response` wraps the structured payload
with `success = true`. -/

inductive Payload where
  /-- A plain message payload. -/
  | msg (s : String)
  /-- `execute_command` success: `{"output": …, "exit_code": …, "cwd": …}`. -/
  | exec (output : String) (exit_code : Int) (cwd : String)
  /-- `expose_port` success: `{"url": …, "port": …, "message": …}`. -/
  | exposed (url : String) (port : Int) (message : String)
  /-- `deploy` success: `{"message": …, "output": …}`. -/
  | deployed (message : String) (output : String)
deriving DecidableEq, Repr

structure ToolResult where
  success : Bool
  payload : Payload
deriving DecidableEq, Repr

def success_response (p : Payload) : ToolResult := ⟨true, p⟩

def fail_response (s : String) : ToolResult := ⟨false, .msg s⟩

/-! ### The remote filesystem and its fault oracle

The sandbox SDK (`self.sandbox.fs`) is external.  Its state is modelled as a
finite map from paths to file contents; a fault oracle chooses, per call, an
exception the SDK raises instead of performing the operation. -/

/-- First value bound to a key in an association list. -/
def lookupList : List (String × String) → String → Option String
  | [], _ => none
  | (k, v) :: rest, p => if k = p then some v else lookupList rest p

/-- Remove every binding of a key from an association list. -/
def eraseList : List (String × String) → String → List (String × String)
  | [], _ => []
  | (k, v) :: rest, p => if k = p then eraseList rest p else (k, v) :: eraseList rest p

structure FSState where
  files : List (String × String)
deriving DecidableEq, Repr

def FSState.lookupFile (st : FSState) (p : String) : Option String :=
  lookupList st.files p

def FSState.hasFile (st : FSState) (p : String) : Bool := (st.lookupFile p).isSome

def FSState.writeFile (st : FSState) (p c : String) : FSState :=
  ⟨(p, c) :: eraseList st.files p⟩

def FSState.removeFile (st : FSState) (p : String) : FSState :=
  ⟨eraseList st.files p⟩

/-- Exceptions injected by the environment into each SDK filesystem call:
`some e` means the call raises with message `e`. -/
structure Faults where
  listF : String → Option String
  readF : String → Option String
  writeF : String → String → Option String
  writeDirF : String → Option String
  removeF : String → Option String

def noFaults : Faults :=
  ⟨fun _ => none, fun _ => none, fun _ _ => none, fun _ => none, fun _ => none⟩

/-- `sandbox.fs.list(path)`: raises when the fault oracle injects an
exception; otherwise returns the one entry for an existing file and the empty
listing for a missing one. -/
def fsList (fl : Faults) (st : FSState) (p : String) : Except String (List String) :=
  match fl.listF p with
  | some e => .error e
  | none => .ok (if st.hasFile p then [p] else [])

/-- `sandbox.fs.read(path)`: the file's contents, or an exception. -/
def fsRead (fl : Faults) (st : FSState) (p : String) : Except String String :=
  match fl.readF p with
  | some e => .error e
  | none =>
    match st.lookupFile p with
    | some c => .ok c
    | none => .error ("file not found: " ++ p)

/-- `sandbox.fs.write(path, contents)`: create or overwrite. -/
def fsWrite (fl : Faults) (st : FSState) (p c : String) : Except String FSState :=
  match fl.writeF p c with
  | some e => .error e
  | none => .ok (st.writeFile p c)

/-- `sandbox.fs.write_dir(path)`: directory creation; directories are not
tracked in the file map. -/
def fsWriteDir (fl : Faults) (st : FSState) (p : String) : Except String FSState :=
  match fl.writeDirF p with
  | some e => .error e
  | none => .ok st

/-- `sandbox.fs.remove(path)`. -/
def fsRemove (fl : Faults) (st : FSState) (p : String) : Except String FSState :=
  match fl.removeF p with
  | some e => .error e
  | none => .ok (st.removeFile p)

/-! ### PathNormalizer -/

/-- Modelled from the spec: the PathNormalizer `utils.files_utils.clean_path`
is imported by the tools but its module is not among the provided sources.
Per the spec it is a pure total function that, given a user path and the
workspace root, returns the path relative to the root with redundant
segments collapsed, rejecting or neutralizing `..` segments that would
escape the root; callers then prepend the root. -/
def clean_path (path : String) (workspace : String) : String :=
  let pd := path.data
  let wd := workspace.data
  let rel := if wd.isPrefixOf pd then pd.drop wd.length else pd
  let segs := (splitOnChar '/' rel).filter (fun seg => seg ≠ [] && seg ≠ ['.'])
  let norm := segs.foldl
    (fun acc seg => if seg = ['.', '.'] then acc.dropLast else acc ++ [seg])
    ([] : List (List Char))
  String.mk (joinWithChar '/' norm)

/-- POSIX resolution of an absolute path into its segment list: empty and
`.` segments vanish and `..` pops the previous segment (staying at the root
when there is none). -/
def resolvePath (p : String) : List (List Char) :=
  ((splitOnChar '/' p.data).filter (fun seg => seg ≠ [] && seg ≠ ['.'])).foldl
    (fun acc seg => if seg = ['.', '.'] then acc.dropLast else acc ++ [seg]) []

/-- Whether an absolute path resolves to `/workspace` or below. -/
def underWorkspace (p : String) : Bool :=
  match resolvePath p with
  | seg :: _ => seg = "workspace".data
  | [] => false

/-! ### SandboxFilesTool -/

/-- `SandboxFilesTool._file_exists`: lists the path, reports whether the
listing is non-empty, and converts any exception into `False`. -/
def file_exists_check (fl : Faults) (st : FSState) (p : String) : Bool :=
  match fsList fl st p with
  | .error _ => false
  | .ok files => files.length > 0

/-- Body of the `try` block of `SandboxFilesTool.create_file` (the path has
already been cleaned outside the block); an `Except.error` is an exception
escaping the block. -/
def create_file_try (fl : Faults) (st : FSState) (fp file_contents : String) :
    Except String (FSState × ToolResult) := do
  let full := "/workspace/" ++ fp
  if file_exists_check fl st full then
    return (st, fail_response ("File '" ++ fp ++ "' already exists"))
  let parent := String.mk (joinWithChar '/' (splitOnChar '/' full.data).dropLast)
  let st1 ← if parent ≠ "" then fsWriteDir fl st parent else pure st
  let st2 ← fsWrite fl st1 full file_contents
  return (st2, success_response (.msg ("File '" ++ fp ++ "' created successfully")))

/-- `SandboxFilesTool.create_file`: `clean_path` runs before the `try`
block; every exception raised inside the block becomes a failure result. -/
def create_file (fl : Faults) (st : FSState) (file_path file_contents : String) :
    FSState × ToolResult :=
  let fp := clean_path file_path "/workspace"
  match create_file_try fl st fp file_contents with
  | .ok r => r
  | .error e => (st, fail_response ("Error creating file: " ++ e))

/-- Body of the `try` block of `SandboxFilesTool.full_file_rewrite`. -/
def full_file_rewrite_try (fl : Faults) (st : FSState) (file_path file_contents : String) :
    Except String (FSState × ToolResult) := do
  let fp := clean_path file_path "/workspace"
  let full := "/workspace/" ++ fp
  if ¬ file_exists_check fl st full then
    return (st, fail_response ("File '" ++ fp ++ "' does not exist"))
  let st1 ← fsWrite fl st full file_contents
  return (st1, success_response (.msg ("File '" ++ fp ++ "' completely rewritten successfully")))

/-- `SandboxFilesTool.full_file_rewrite`. -/
def full_file_rewrite (fl : Faults) (st : FSState) (file_path file_contents : String) :
    FSState × ToolResult :=
  match full_file_rewrite_try fl st file_path file_contents with
  | .ok r => r
  | .error e => (st, fail_response ("Error rewriting file: " ++ e))

/-- The 1-based numbers of the lines of `content` in which `old` occurs,
exactly as `str_replace` computes them on a multiple match. -/
def matchLineNumbers (content old : List Char) : List Nat :=
  (((splitOnChar '\n' content).enum).filter (fun p => pyIn old p.2)).map (fun p => p.1 + 1)

/-- Body of the `try` block of `SandboxFilesTool.str_replace`. -/
def str_replace_try (fl : Faults) (st : FSState) (file_path old_str new_str : String) :
    Except String (FSState × ToolResult) := do
  let fp := clean_path file_path "/workspace"
  let full := "/workspace/" ++ fp
  if ¬ file_exists_check fl st full then
    return (st, fail_response ("File '" ++ fp ++ "' does not exist"))
  let content ← fsRead fl st full
  let old := expandtabsS old_str
  let new := expandtabsS new_str
  let occurrences := pyCount content.data old.data
  if occurrences = 0 then
    return (st, fail_response ("String '" ++ old ++ "' not found in file"))
  if occurrences > 1 then
    let lines := matchLineNumbers content.data old.data
    return (st, fail_response ("Multiple occurrences found in lines " ++ pyReprNatList lines))
  let new_content := String.mk (pyReplace content.data old.data new.data)
  let st1 ← fsWrite fl st full new_content
  return (st1, success_response (.msg "Replacement successful"))

/-- `SandboxFilesTool.str_replace`. -/
def str_replace (fl : Faults) (st : FSState) (file_path old_str new_str : String) :
    FSState × ToolResult :=
  match str_replace_try fl st file_path old_str new_str with
  | .ok r => r
  | .error e => (st, fail_response ("Error replacing string: " ++ e))

/-- Body of the `try` block of `SandboxFilesTool.delete_file`. -/
def delete_file_try (fl : Faults) (st : FSState) (file_path : String) :
    Except String (FSState × ToolResult) := do
  let fp := clean_path file_path "/workspace"
  let full := "/workspace/" ++ fp
  if ¬ file_exists_check fl st full then
    return (st, fail_response ("File '" ++ fp ++ "' does not exist"))
  let st1 ← fsRemove fl st full
  return (st1, success_response (.msg ("File '" ++ fp ++ "' deleted successfully")))

/-- `SandboxFilesTool.delete_file`. -/
def delete_file (fl : Faults) (st : FSState) (file_path : String) :
    FSState × ToolResult :=
  match delete_file_try fl st file_path with
  | .ok r => r
  | .error e => (st, fail_response ("Error deleting file: " ++ e))

/-! ### SandboxShellTool -/

structure ProcOutput where
  exit_code : Int
  stdout : String
  stderr : String
deriving DecidableEq, Repr

/-- The sandbox process channel: `process.start(command, cwd=cwd)` followed
by `wait(timeout=timeout)`, modelled as one oracle keyed by the issued
command, the working directory and the timeout; an `Except.error` is an
exception (transport or timeout) raised by either call. -/
structure ProcEnv where
  run : String → String → Int → Except String ProcOutput

/-- The `_sessions` map of `SandboxShellTool`: session names to session
identifiers. -/
structure ShellState where
  sessions : List (String × String)
deriving DecidableEq, Repr

/-- `SandboxShellTool._ensure_session`: look the name up, inserting a fresh
identifier (a `uuid4` value, supplied here by the environment) when absent,
and return the mapped identifier. -/
def ensure_session (fresh : String) (st : ShellState) (session_name : String) :
    ShellState × String :=
  match lookupList st.sessions session_name with
  | some sid => (st, sid)
  | none => (⟨st.sessions ++ [(session_name, fresh)]⟩, fresh)

/-- Working-directory resolution of `execute_command`: `/workspace`, or, for
a truthy folder argument, `/workspace/` plus the folder stripped of leading
and trailing slashes.  The folder is not passed through `clean_path`. -/
def resolved_cwd (folder : Option String) : String :=
  match folder with
  | none => "/workspace"
  | some f => if f = "" then "/workspace" else "/workspace/" ++ stripSlashes f

/-- The single remote command `execute_command` issues. -/
def issued_command (command : String) (folder : Option String) : String :=
  "cd " ++ resolved_cwd folder ++ " && " ++ command

/-- Body of the `try` block of `SandboxShellTool.execute_command` (the whole
method body). -/
def execute_command_try (pe : ProcEnv) (fresh : String) (st : ShellState)
    (command : String) (folder : Option String) (session_name : String) (timeout : Int) :
    Except String (ShellState × ToolResult) := do
  let st1 := (ensure_session fresh st session_name).1
  let cwd := resolved_cwd folder
  let out ← pe.run (issued_command command folder) cwd timeout
  if out.exit_code = 0 then
    return (st1, success_response (.exec out.stdout out.exit_code cwd))
  else
    let base := "Command failed with exit code " ++ toString out.exit_code
    let msg := if out.stderr ≠ "" then base ++ ": " ++ out.stderr else base
    return (st1, fail_response msg)

/-- `SandboxShellTool.execute_command`.  `_ensure_session` is deterministic
and raises nothing, so at a catch the session map already holds the ensured
entry. -/
def execute_command (pe : ProcEnv) (fresh : String) (st : ShellState)
    (command : String) (folder : Option String) (session_name : String) (timeout : Int) :
    ShellState × ToolResult :=
  match execute_command_try pe fresh st command folder session_name timeout with
  | .ok r => r
  | .error e =>
    ((ensure_session fresh st session_name).1,
      fail_response ("Error executing command: " ++ e))

/-- `SandboxShellTool.cleanup`: clear the session map. -/
def cleanup (_st : ShellState) : ShellState := ⟨[]⟩

/-! ### SandboxExposeTool -/

/-- The sandbox port-forwarding capability `session.expose_port`, with the
exceptions it may raise. -/
structure ExposeEnv where
  expose : Int → Except String String

/-- Body of the outer `try` block of `SandboxExposeTool.expose_port`: the
`int(port)` conversion may raise `ValueError` (the only uncaught exception
source in the block, since the forwarding call sits in its own inner
`try`). -/
def expose_port_try (env : ExposeEnv) (port0 : PyVal) : Except String ToolResult := do
  let port ← pyInt port0
  if 1 ≤ port ∧ port ≤ 65535 then
    match env.expose port with
    | .ok url =>
      return success_response (.exposed url port
        ("Successfully exposed port " ++ toString port ++ ". Access the service at: " ++ url))
    | .error e =>
      return fail_response ("Failed to expose port " ++ toString port ++ ": " ++ e)
  else
    return fail_response
      ("Invalid port number: " ++ toString port ++ ". Must be between 1 and 65535.")

/-- `SandboxExposeTool.expose_port`: a `ValueError` escaping the block hits
the `except ValueError` handler, which interpolates the unconverted
argument. -/
def expose_port (env : ExposeEnv) (port0 : PyVal) : ToolResult :=
  match expose_port_try env port0 with
  | .ok r => r
  | .error _ =>
    fail_response
      ("Invalid port number: " ++ port0.show ++ ". Must be a valid integer between 1 and 65535.")

/-! ### SandboxDeployTool -/

/-- The environment of `SandboxDeployTool.deploy`: the
`CLOUDFLARE_API_TOKEN` variable as read at construction, the sandbox
identifier, the directory-listing call and the process channel used for the
wrangler command. -/
structure DeployEnv where
  cloudflare_api_token : Option String
  sandbox_id : String
  listDir : String → Except String (List String)
  run : String → Except String ProcOutput

/-- The project name `deploy` derives for the wrangler CLI. -/
def deploy_project_name (sandbox_id name : String) : String :=
  sandbox_id ++ "-" ++ name

/-- The wrangler command `deploy` issues (the backslash continuations of the
Python source keep each following line's twenty-space indentation inside the
string). -/
def deploy_command (token full_path project_name : String) : String :=
  "export CLOUDFLARE_API_TOKEN=" ++ token ++ " && " ++
    "                    (npx wrangler pages deploy " ++ full_path ++
    " --project-name " ++ project_name ++ " || " ++
    "                    (npx wrangler pages project create " ++ project_name ++
    " --production-branch production && " ++
    "                    npx wrangler pages deploy " ++ full_path ++
    " --project-name " ++ project_name ++ "))"

/-- Inner deployment `try` block of `SandboxDeployTool.deploy`: token check,
project-name derivation, wrangler invocation. -/
def deploy_inner (env : DeployEnv) (full_path name : String) : Except String ToolResult := do
  match env.cloudflare_api_token with
  | none => return fail_response "CLOUDFLARE_API_TOKEN environment variable not set"
  | some token =>
    if token = "" then
      return fail_response "CLOUDFLARE_API_TOKEN environment variable not set"
    else
      let project_name := deploy_project_name env.sandbox_id name
      let out ← env.run (deploy_command token full_path project_name)
      if out.stdout ≠ "" then
        return success_response (.deployed "Website deployed successfully" out.stdout)
      else
        return fail_response "Deployment failed: No output received"

/-- Body of the outer `try` block of `SandboxDeployTool.deploy`: the
directory check and the inner deployment block each sit in their own nested
`try`, so no exception escapes this body. -/
def deploy_try (env : DeployEnv) (name directory_path : String) : Except String ToolResult := do
  let dp := clean_path directory_path "/workspace"
  let full_path := "/workspace/" ++ dp
  match env.listDir full_path with
  | .error e => return fail_response ("Directory '" ++ dp ++ "' does not exist: " ++ e)
  | .ok files =>
    if files.isEmpty then
      return fail_response ("Directory '" ++ dp ++ "' is empty or does not exist")
    else
      match deploy_inner env full_path name with
      | .ok r => return r
      | .error e => return fail_response ("Error during deployment: " ++ e)

/-- `SandboxDeployTool.deploy`. -/
def deploy (env : DeployEnv) (name directory_path : String) : ToolResult :=
  match deploy_try env name directory_path with
  | .ok r => r
  | .error e => fail_response ("Error deploying website: " ++ e)

/-! ### Helper lemmas -/

/-- A prefix decomposes a list at the prefix's length. -/
theorem prefix_decomp {pat s : List Char} (h : pat.isPrefixOf s = true) :
    s = pat ++ s.drop pat.length := by
  have := List.isPrefixOf_iff_prefix.mp h
  exact (List.prefix_iff_eq_append.mp this).symm

theorem drop_cons_pred {c : Char} {rest : List Char} {pat : List Char} (h : pat ≠ []) :
    List.drop (pat.length - 1) rest = List.drop pat.length (c :: rest) := by
  cases hp : pat with
  | nil => exact absurd hp h
  | cons a l => simp [hp, List.drop_succ_cons]

theorem replaceFrom_of_countFrom_eq_zero (pat rep : List Char) (hpat : pat ≠ []) :
    ∀ s : List Char, countFrom pat s = 0 → replaceFrom pat rep s = s := by
  intro s
  induction s using countFrom.induct pat with
  | case1 =>
    intro _
    rw [replaceFrom, if_neg hpat]
  | case2 c rest h ih =>
    intro hc
    rw [countFrom, if_pos h] at hc
    omega
  | case3 c rest h ih =>
    intro hc
    rw [countFrom, if_neg h] at hc
    rw [replaceFrom, if_neg h, if_neg hpat, ih hc]

theorem countFrom_eq_one_decomp (pat rep : List Char) (hpat : pat ≠ []) :
    ∀ s : List Char, countFrom pat s = 1 →
      ∃ p q, s = p ++ pat ++ q ∧ countFrom pat q = 0 ∧ replaceFrom pat rep s = p ++ rep ++ q := by
  intro s
  induction s using countFrom.induct pat with
  | case1 =>
    intro hc
    rw [countFrom] at hc
    omega
  | case2 c rest h ih =>
    intro hc
    rw [countFrom, if_pos h] at hc
    have hq : countFrom pat (List.drop (pat.length - 1) rest) = 0 := by omega
    refine ⟨[], List.drop (pat.length - 1) rest, ?_, hq, ?_⟩
    · have := prefix_decomp h.2
      rw [drop_cons_pred hpat]
      simpa using this
    · rw [replaceFrom, if_pos h, replaceFrom_of_countFrom_eq_zero pat rep hpat _ hq]
      simp
  | case3 c rest h ih =>
    intro hc
    rw [countFrom, if_neg h] at hc
    obtain ⟨p, q, hs, hq, hr⟩ := ih hc
    refine ⟨c :: p, q, by simp [hs], hq, ?_⟩
    rw [replaceFrom, if_neg h, if_neg hpat, hr]
    simp

/-- Python single-occurrence replacement: when `pat` occurs exactly once in
`s` (Python counting), the replacement splits `s` around that occurrence and
substitutes `rep`, leaving everything else untouched. -/
theorem pyReplace_single (s pat rep : List Char) (h : pyCount s pat = 1) :
    ∃ p q, s = p ++ pat ++ q ∧ pyReplace s pat rep = p ++ rep ++ q := by
  by_cases hpat : pat = []
  · subst hpat
    rw [pyCount, if_pos rfl] at h
    have hs : s = [] := by
      cases s with
      | nil => rfl
      | cons a l => simp at h
    subst hs
    exact ⟨[], [], rfl, by rw [pyReplace, replaceFrom, if_pos rfl]; simp⟩
  · rw [pyCount, if_neg hpat] at h
    obtain ⟨p, q, hs, _, hr⟩ := countFrom_eq_one_decomp pat rep hpat s h
    exact ⟨p, q, hs, hr⟩

theorem lookupList_append_self {l : List (String × String)} {p : String} (v : String)
    (h : lookupList l p = none) : lookupList (l ++ [(p, v)]) p = some v := by
  induction l with
  | nil => simp [lookupList]
  | cons kv rest ih =>
    obtain ⟨k, w⟩ := kv
    by_cases hk : k = p
    · rw [lookupList, if_pos hk] at h
      exact absurd h (by simp)
    · rw [lookupList, if_neg hk] at h
      rw [List.cons_append, lookupList, if_neg hk]
      exact ih h

theorem hasFile_writeFile_self (st : FSState) (p c : String) :
    (st.writeFile p c).hasFile p = true := by
  simp [FSState.writeFile, FSState.hasFile, FSState.lookupFile, lookupList]

/-- With no injected faults the existence probe agrees with the file map. -/
theorem file_exists_check_noFaults (st : FSState) (p : String) :
    file_exists_check noFaults st p = st.hasFile p := by
  rw [file_exists_check, fsList]
  by_cases h : st.hasFile p <;> simp [noFaults, h]

theorem fsWriteDir_noFaults (st : FSState) (p : String) :
    fsWriteDir noFaults st p = Except.ok st := rfl

theorem fsWrite_noFaults (st : FSState) (p c : String) :
    fsWrite noFaults st p c = Except.ok (st.writeFile p c) := rfl

theorem fsRemove_noFaults (st : FSState) (p : String) :
    fsRemove noFaults st p = Except.ok (st.removeFile p) := rfl

theorem fsRead_noFaults_some (st : FSState) (p c : String) (h : st.lookupFile p = some c) :
    fsRead noFaults st p = Except.ok c := by
  rw [fsRead]
  simp only [noFaults, h]

/-- `create_file` on an already existing path fails without mutating. -/
theorem create_file_exists_fails (st : FSState) (p c : String)
    (h : st.hasFile ("/workspace/" ++ clean_path p "/workspace") = true) :
    create_file noFaults st p c =
      (st, fail_response ("File '" ++ clean_path p "/workspace" ++ "' already exists")) := by
  rw [create_file, create_file_try]
  simp [file_exists_check_noFaults, h, pure, Except.pure]

/-- `create_file` on an absent path writes the contents. -/
theorem create_file_absent_writes (st : FSState) (p c : String)
    (h : st.hasFile ("/workspace/" ++ clean_path p "/workspace") = false) :
    create_file noFaults st p c =
      (st.writeFile ("/workspace/" ++ clean_path p "/workspace") c,
        success_response (.msg ("File '" ++ clean_path p "/workspace" ++
          "' created successfully"))) := by
  rw [create_file, create_file_try]
  simp [file_exists_check_noFaults, h, fsWriteDir_noFaults, fsWrite_noFaults,
    pure, Except.pure, bind, Except.bind]

theorem full_file_rewrite_missing_fails (st : FSState) (p c : String)
    (h : st.hasFile ("/workspace/" ++ clean_path p "/workspace") = false) :
    full_file_rewrite noFaults st p c =
      (st, fail_response ("File '" ++ clean_path p "/workspace" ++ "' does not exist")) := by
  rw [full_file_rewrite, full_file_rewrite_try]
  simp [file_exists_check_noFaults, h, pure, Except.pure]

theorem str_replace_missing_fails (st : FSState) (p o n : String)
    (h : st.hasFile ("/workspace/" ++ clean_path p "/workspace") = false) :
    str_replace noFaults st p o n =
      (st, fail_response ("File '" ++ clean_path p "/workspace" ++ "' does not exist")) := by
  rw [str_replace, str_replace_try]
  simp [file_exists_check_noFaults, h, pure, Except.pure]

theorem delete_file_missing_fails (st : FSState) (p : String)
    (h : st.hasFile ("/workspace/" ++ clean_path p "/workspace") = false) :
    delete_file noFaults st p =
      (st, fail_response ("File '" ++ clean_path p "/workspace" ++ "' does not exist")) := by
  rw [delete_file, delete_file_try]
  simp [file_exists_check_noFaults, h, pure, Except.pure]

/-- An exception in the `list` call makes the existence probe answer `false`. -/
theorem file_exists_check_fault (fl : Faults) (st : FSState) (p e : String)
    (h : fl.listF p = some e) : file_exists_check fl st p = false := by
  rw [file_exists_check, fsList, h]

/-- The 1-based line numbers reported on a multiple match are exactly the
lines in which the pattern occurs. -/
theorem mem_matchLineNumbers {content old : List Char} {n : Nat} :
    n ∈ matchLineNumbers content old ↔
      ∃ i : Nat, ∃ hi : i < (splitOnChar '\n' content).length,
        n = i + 1 ∧ old <:+: (splitOnChar '\n' content).get ⟨i, hi⟩ := by
  rw [matchLineNumbers]
  simp only [List.mem_map, List.mem_filter, Prod.exists]
  constructor
  · rintro ⟨i, line, ⟨henum, hin⟩, hn⟩
    rw [List.mk_mem_enum_iff_getElem?] at henum
    rw [List.getElem?_eq_some] at henum
    obtain ⟨hi, hget⟩ := henum
    refine ⟨i, hi, hn.symm, ?_⟩
    rw [pyIn, decide_eq_true_iff] at hin
    rw [List.get_eq_getElem, hget]
    exact hin
  · rintro ⟨i, hi, hn, hinf⟩
    refine ⟨i, (splitOnChar '\n' content).get ⟨i, hi⟩, ⟨?_, ?_⟩, hn.symm⟩
    · rw [List.mk_mem_enum_iff_getElem?, List.getElem?_eq_some]
      exact ⟨hi, by rw [List.get_eq_getElem]⟩
    · rw [pyIn, decide_eq_true_iff]
      exact hinf

/-- A multiple match leaves the state untouched and reports the line
numbers, whatever the write-fault behavior of the environment. -/
theorem str_replace_multiple_fails (fl : Faults) (st : FSState)
    (path old new content : String)
    (hlist : fl.listF ("/workspace/" ++ clean_path path "/workspace") = none)
    (hread : fl.readF ("/workspace/" ++ clean_path path "/workspace") = none)
    (hfile : st.lookupFile ("/workspace/" ++ clean_path path "/workspace") = some content)
    (hmany : pyCount content.data (expandtabsS old).data > 1) :
    str_replace fl st path old new =
      (st, fail_response ("Multiple occurrences found in lines " ++
        pyReprNatList (matchLineNumbers content.data (expandtabsS old).data))) := by
  have hex : file_exists_check fl st ("/workspace/" ++ clean_path path "/workspace") = true := by
    rw [file_exists_check, fsList, hlist]
    simp [FSState.hasFile, hfile]
  have hrd : fsRead fl st ("/workspace/" ++ clean_path path "/workspace") =
      Except.ok content := by
    rw [fsRead, hread, hfile]
  have h0 : pyCount content.data (expandtabsS old).data ≠ 0 := by omega
  rw [str_replace, str_replace_try]
  simp [hex, hrd, h0, hmany, pure, Except.pure, bind, Except.bind]

/-- A single match succeeds and writes back the replaced content. -/
theorem str_replace_single_succeeds (st : FSState) (path old new content : String)
    (hfile : st.lookupFile ("/workspace/" ++ clean_path path "/workspace") = some content)
    (hone : pyCount content.data (expandtabsS old).data = 1) :
    str_replace noFaults st path old new =
      (st.writeFile ("/workspace/" ++ clean_path path "/workspace")
        (String.mk (pyReplace content.data (expandtabsS old).data (expandtabsS new).data)),
       success_response (.msg "Replacement successful")) := by
  have hhas : st.hasFile ("/workspace/" ++ clean_path path "/workspace") = true := by
    simp [FSState.hasFile, hfile]
  rw [str_replace, str_replace_try]
  simp [file_exists_check_noFaults, hhas, fsRead_noFaults_some st _ content hfile,
    hone, fsWrite_noFaults, pure, Except.pure, bind, Except.bind]

/-- `execute_command` when the remote process exits 0. -/
theorem execute_command_zero_exit (pe : ProcEnv) (fresh : String) (st : ShellState)
    (cmd : String) (folder : Option String) (sn : String) (t : Int) (out : ProcOutput)
    (hrun : pe.run (issued_command cmd folder) (resolved_cwd folder) t = .ok out)
    (hexit : out.exit_code = 0) :
    execute_command pe fresh st cmd folder sn t =
      ((ensure_session fresh st sn).1,
        success_response (.exec out.stdout out.exit_code (resolved_cwd folder))) := by
  rw [execute_command, execute_command_try]
  simp [hrun, hexit, pure, Except.pure, bind, Except.bind]

/-- `execute_command` on a non-zero exit with non-empty stderr. -/
theorem execute_command_nonzero_stderr (pe : ProcEnv) (fresh : String) (st : ShellState)
    (cmd : String) (folder : Option String) (sn : String) (t : Int) (out : ProcOutput)
    (hrun : pe.run (issued_command cmd folder) (resolved_cwd folder) t = .ok out)
    (hexit : out.exit_code ≠ 0) (hstderr : out.stderr ≠ "") :
    execute_command pe fresh st cmd folder sn t =
      ((ensure_session fresh st sn).1,
        fail_response ("Command failed with exit code " ++ toString out.exit_code ++
          ": " ++ out.stderr)) := by
  rw [execute_command, execute_command_try]
  simp [hrun, hexit, hstderr, pure, Except.pure, bind, Except.bind]

/-- `execute_command` on a non-zero exit with empty stderr. -/
theorem execute_command_nonzero_no_stderr (pe : ProcEnv) (fresh : String) (st : ShellState)
    (cmd : String) (folder : Option String) (sn : String) (t : Int) (out : ProcOutput)
    (hrun : pe.run (issued_command cmd folder) (resolved_cwd folder) t = .ok out)
    (hexit : out.exit_code ≠ 0) (hstderr : out.stderr = "") :
    execute_command pe fresh st cmd folder sn t =
      ((ensure_session fresh st sn).1,
        fail_response ("Command failed with exit code " ++ toString out.exit_code)) := by
  rw [execute_command, execute_command_try]
  simp [hrun, hexit, hstderr, pure, Except.pure, bind, Except.bind]

/-- The session map after `execute_command` is the ensured map, on every
path through the method. -/
theorem execute_command_state (pe : ProcEnv) (fresh : String) (st : ShellState)
    (cmd : String) (folder : Option String) (sn : String) (t : Int) :
    (execute_command pe fresh st cmd folder sn t).1 = (ensure_session fresh st sn).1 := by
  rw [execute_command, execute_command_try]
  cases hrun : pe.run (issued_command cmd folder) (resolved_cwd folder) t with
  | ok out =>
    by_cases h0 : out.exit_code = 0 <;>
      simp [hrun, h0, pure, Except.pure, bind, Except.bind]
  | error e => simp [hrun, pure, Except.pure, bind, Except.bind]

/-- The result of `execute_command` does not depend on the session name. -/
theorem execute_command_indep_session (pe : ProcEnv) (fresh : String) (st : ShellState)
    (cmd : String) (folder : Option String) (n1 n2 : String) (t : Int) :
    (execute_command pe fresh st cmd folder n1 t).2 =
      (execute_command pe fresh st cmd folder n2 t).2 := by
  rw [execute_command, execute_command, execute_command_try, execute_command_try]
  cases hrun : pe.run (issued_command cmd folder) (resolved_cwd folder) t with
  | ok out =>
    by_cases h0 : out.exit_code = 0 <;>
      simp [hrun, h0, pure, Except.pure, bind, Except.bind]
  | error e => simp [hrun, pure, Except.pure, bind, Except.bind]

/-- A second `_ensure_session` on the ensured map observes the identifier
the first one produced, whatever fresh value the second would have drawn. -/
theorem ensure_session_stable (fresh fresh' : String) (st : ShellState) (sn : String) :
    ensure_session fresh' (ensure_session fresh st sn).1 sn =
      ((ensure_session fresh st sn).1, (ensure_session fresh st sn).2) := by
  cases hl : lookupList st.sessions sn with
  | some sid => simp [ensure_session, hl]
  | none =>
    simp only [ensure_session, hl]
    rw [lookupList_append_self fresh hl]

/-- Out-of-range ports are rejected before the forwarding call: the result
does not depend on the environment. -/
theorem expose_port_out_of_range (env : ExposeEnv) (n : Int) (hn : n < 1 ∨ n > 65535) :
    expose_port env (.vint n) =
      fail_response ("Invalid port number: " ++ toString n ++
        ". Must be between 1 and 65535.") := by
  have hrange : ¬ (1 ≤ n ∧ n ≤ 65535) := by omega
  rw [expose_port, expose_port_try]
  simp [pyInt, hrange, pure, Except.pure, bind, Except.bind]

/-- A string that `int()` rejects is reported by the `ValueError` handler,
without any forwarding call. -/
theorem expose_port_non_integer (env : ExposeEnv) (s e : String)
    (h : pyInt (.vstr s) = .error e) :
    expose_port env (.vstr s) =
      fail_response ("Invalid port number: " ++ s ++
        ". Must be a valid integer between 1 and 65535.") := by
  rw [expose_port, expose_port_try]
  simp [h, PyVal.show, pure, Except.pure, bind, Except.bind]

/-- An in-range port is forwarded and the URL returned with the port. -/
theorem expose_port_forwards (env : ExposeEnv) (n : Int) (url : String)
    (h1 : 1 ≤ n) (h2 : n ≤ 65535) (hurl : env.expose n = .ok url) :
    expose_port env (.vint n) =
      success_response (.exposed url n
        ("Successfully exposed port " ++ toString n ++
          ". Access the service at: " ++ url)) := by
  rw [expose_port, expose_port_try]
  simp [pyInt, h1, h2, hurl, pure, Except.pure, bind, Except.bind]

/-- A forwarding exception is wrapped into a failure message. -/
theorem expose_port_forward_error (env : ExposeEnv) (n : Int) (e : String)
    (h1 : 1 ≤ n) (h2 : n ≤ 65535) (herr : env.expose n = .error e) :
    expose_port env (.vint n) =
      fail_response ("Failed to expose port " ++ toString n ++ ": " ++ e) := by
  rw [expose_port, expose_port_try]
  simp [pyInt, h1, h2, herr, pure, Except.pure, bind, Except.bind]

/-- With the directory check passed but no API token in the environment,
`deploy` fails with the dedicated message. -/
theorem deploy_no_token (env : DeployEnv) (nm dp : String) (files : List String)
    (hls : env.listDir ("/workspace/" ++ clean_path dp "/workspace") = .ok files)
    (hne : files ≠ []) (htok : env.cloudflare_api_token = none) :
    deploy env nm dp = fail_response "CLOUDFLARE_API_TOKEN environment variable not set" := by
  rw [deploy, deploy_try]
  simp [hls, hne, deploy_inner, htok, pure, Except.pure, bind, Except.bind]

/-- A deployment whose wrangler run produces stdout succeeds with that
output as payload; the command is keyed by the derived project name. -/
theorem deploy_with_output (env : DeployEnv) (nm dp tok : String) (files : List String)
    (out : ProcOutput)
    (hls : env.listDir ("/workspace/" ++ clean_path dp "/workspace") = .ok files)
    (hne : files ≠ []) (htok : env.cloudflare_api_token = some tok) (htne : tok ≠ "")
    (hrun : env.run (deploy_command tok ("/workspace/" ++ clean_path dp "/workspace")
      (deploy_project_name env.sandbox_id nm)) = .ok out)
    (hout : out.stdout ≠ "") :
    deploy env nm dp =
      success_response (.deployed "Website deployed successfully" out.stdout) := by
  rw [deploy, deploy_try]
  simp [hls, hne, deploy_inner, htok, htne, hrun, hout, pure, Except.pure, bind, Except.bind]

/-- A wrangler run with empty stdout is a failure. -/
theorem deploy_without_output (env : DeployEnv) (nm dp tok : String) (files : List String)
    (out : ProcOutput)
    (hls : env.listDir ("/workspace/" ++ clean_path dp "/workspace") = .ok files)
    (hne : files ≠ []) (htok : env.cloudflare_api_token = some tok) (htne : tok ≠ "")
    (hrun : env.run (deploy_command tok ("/workspace/" ++ clean_path dp "/workspace")
      (deploy_project_name env.sandbox_id nm)) = .ok out)
    (hout : out.stdout = "") :
    deploy env nm dp = fail_response "Deployment failed: No output received" := by
  rw [deploy, deploy_try]
  simp [hls, hne, deploy_inner, htok, htne, hrun, hout, pure, Except.pure, bind, Except.bind]

/-- An exception from the wrangler run is wrapped into a failure result. -/
theorem deploy_run_error (env : DeployEnv) (nm dp tok e : String) (files : List String)
    (hls : env.listDir ("/workspace/" ++ clean_path dp "/workspace") = .ok files)
    (hne : files ≠ []) (htok : env.cloudflare_api_token = some tok) (htne : tok ≠ "")
    (hrun : env.run (deploy_command tok ("/workspace/" ++ clean_path dp "/workspace")
      (deploy_project_name env.sandbox_id nm)) = .error e) :
    deploy env nm dp = fail_response ("Error during deployment: " ++ e) := by
  rw [deploy, deploy_try]
  simp [hls, hne, deploy_inner, htok, htne, hrun, pure, Except.pure, bind, Except.bind]

/-- `create_file` under a faulting existence probe but working writes:
it proceeds as if the file were absent. -/
theorem create_file_list_fault_writes (fl : Faults) (st : FSState) (p c e : String)
    (h : fl.listF ("/workspace/" ++ clean_path p "/workspace") = some e)
    (hwd : ∀ q, fl.writeDirF q = none) (hw : ∀ q d, fl.writeF q d = none) :
    create_file fl st p c =
      (st.writeFile ("/workspace/" ++ clean_path p "/workspace") c,
        success_response (.msg ("File '" ++ clean_path p "/workspace" ++
          "' created successfully"))) := by
  have hex := file_exists_check_fault fl st _ e h
  rw [create_file, create_file_try]
  simp [hex, fsWriteDir, fsWrite, hwd, hw, pure, Except.pure, bind, Except.bind]

/-- `full_file_rewrite` under a faulting existence probe reports a missing
file rather than the transport error. -/
theorem full_file_rewrite_list_fault (fl : Faults) (st : FSState) (p c e : String)
    (h : fl.listF ("/workspace/" ++ clean_path p "/workspace") = some e) :
    full_file_rewrite fl st p c =
      (st, fail_response ("File '" ++ clean_path p "/workspace" ++ "' does not exist")) := by
  have hex := file_exists_check_fault fl st _ e h
  rw [full_file_rewrite, full_file_rewrite_try]
  simp [hex, pure, Except.pure]

/-- Same for `str_replace`. -/
theorem str_replace_list_fault (fl : Faults) (st : FSState) (p o n e : String)
    (h : fl.listF ("/workspace/" ++ clean_path p "/workspace") = some e) :
    str_replace fl st p o n =
      (st, fail_response ("File '" ++ clean_path p "/workspace" ++ "' does not exist")) := by
  have hex := file_exists_check_fault fl st _ e h
  rw [str_replace, str_replace_try]
  simp [hex, pure, Except.pure]

/-- Same for `delete_file`. -/
theorem delete_file_list_fault (fl : Faults) (st : FSState) (p e : String)
    (h : fl.listF ("/workspace/" ++ clean_path p "/workspace") = some e) :
    delete_file fl st p =
      (st, fail_response ("File '" ++ clean_path p "/workspace" ++ "' does not exist")) := by
  have hex := file_exists_check_fault fl st _ e h
  rw [delete_file, delete_file_try]
  simp [hex, pure, Except.pure]

/-! ### Path-normalizer safety lemmas -/

theorem splitOnChar_no_sep (sep : Char) (p : List Char) (h : sep ∉ p) :
    splitOnChar sep p = [p] := by
  induction p with
  | nil => rfl
  | cons c rest ih =>
    have hc : c ≠ sep := fun hcc => h (hcc ▸ List.mem_cons_self c rest)
    have hrest : sep ∉ rest := fun hm => h (List.mem_cons_of_mem c hm)
    rw [splitOnChar]
    simp only [if_neg hc, ih hrest]

theorem splitOnChar_append_no_sep (sep : Char) (p ys : List Char) (h : sep ∉ p) :
    splitOnChar sep (p ++ sep :: ys) = p :: splitOnChar sep ys := by
  induction p with
  | nil =>
    rw [List.nil_append, splitOnChar]
    simp
  | cons c rest ih =>
    have hc : c ≠ sep := fun hcc => h (hcc ▸ List.mem_cons_self c rest)
    have hrest : sep ∉ rest := fun hm => h (List.mem_cons_of_mem c hm)
    rw [List.cons_append, splitOnChar]
    simp only [if_neg hc, ih hrest]

theorem splitOnChar_joinWithChar (sep : Char) (parts : List (List Char))
    (hne : parts ≠ []) (h : ∀ part ∈ parts, sep ∉ part) :
    splitOnChar sep (joinWithChar sep parts) = parts := by
  induction parts with
  | nil => exact absurd rfl hne
  | cons p rest ih =>
    cases rest with
    | nil =>
      rw [joinWithChar]
      exact splitOnChar_no_sep sep p (h p (List.mem_cons_self p []))
    | cons q rest' =>
      rw [joinWithChar]
      · rw [splitOnChar_append_no_sep sep p _ (h p (List.mem_cons_self p _))]
        rw [ih (by simp) (fun part hp => h part (List.mem_cons_of_mem p hp))]
      · simp

theorem splitOnChar_ne_nil (sep : Char) (s : List Char) : splitOnChar sep s ≠ [] := by
  cases s with
  | nil => simp [splitOnChar]
  | cons c rest =>
    rw [splitOnChar]
    by_cases hc : c = sep
    · simp [hc]
    · simp only [if_neg hc]
      cases splitOnChar sep rest <;> simp

theorem mem_splitOnChar_no_sep (sep : Char) (s : List Char) :
    ∀ part ∈ splitOnChar sep s, sep ∉ part := by
  induction s with
  | nil =>
    intro part hp
    rw [splitOnChar] at hp
    rcases List.mem_singleton.mp hp with rfl
    exact List.not_mem_nil sep
  | cons c rest ih =>
    intro part hp
    rw [splitOnChar] at hp
    by_cases hc : c = sep
    · rw [if_pos hc] at hp
      rcases List.mem_cons.mp hp with rfl | hmem
      · exact List.not_mem_nil sep
      · exact ih part hmem
    · rw [if_neg hc] at hp
      rcases hr : splitOnChar sep rest with _ | ⟨l, ls⟩
      · exact absurd hr (splitOnChar_ne_nil sep rest)
      · rw [hr] at hp
        rcases List.mem_cons.mp hp with rfl | hmem
        · intro hin
          rcases List.mem_cons.mp hin with rfl | hin'
          · exact hc rfl
          · exact ih l (hr ▸ List.mem_cons_self l ls) hin'
        · exact ih part (hr ▸ List.mem_cons_of_mem l hmem)

/-- Segments surviving the `..`-neutralizing fold are good: they come from
the filtered input and are never `..` themselves. -/
theorem foldl_clean_invariant (P : List Char → Prop) :
    ∀ (segs : List (List Char)), (∀ s ∈ segs, P s) →
    ∀ acc : List (List Char), (∀ s ∈ acc, P s ∧ s ≠ ['.', '.']) →
    ∀ s ∈ segs.foldl
      (fun acc seg => if seg = ['.', '.'] then acc.dropLast else acc ++ [seg]) acc,
      P s ∧ s ≠ ['.', '.'] := by
  intro segs
  induction segs with
  | nil =>
    intro _ acc hacc
    simpa using hacc
  | cons seg rest ih =>
    intro hsegs acc hacc
    rw [List.foldl_cons]
    by_cases hs : seg = ['.', '.']
    · rw [if_pos hs]
      exact ih (fun s hm => hsegs s (List.mem_cons_of_mem _ hm)) _
        (fun s hm => hacc s (List.dropLast_subset _ hm))
    · rw [if_neg hs]
      refine ih (fun s hm => hsegs s (List.mem_cons_of_mem _ hm)) _ ?_
      intro s hm
      rcases List.mem_append.mp hm with h1 | h2
      · exact hacc s h1
      · rcases List.mem_singleton.mp h2 with rfl
        exact ⟨hsegs s (List.mem_cons_self _ _), hs⟩

/-- Without `..` segments the fold is a plain append. -/
theorem foldl_no_dots :
    ∀ (l : List (List Char)), (∀ s ∈ l, s ≠ ['.', '.']) →
    ∀ acc, l.foldl
      (fun acc seg => if seg = ['.', '.'] then acc.dropLast else acc ++ [seg]) acc =
      acc ++ l := by
  intro l
  induction l with
  | nil => intro _ acc; simp
  | cons seg rest ih =>
    intro h acc
    rw [List.foldl_cons, if_neg (h seg (List.mem_cons_self _ _))]
    rw [ih (fun s hm => h s (List.mem_cons_of_mem _ hm))]
    simp

/-- A workspace-relative path made of good segments resolves under
`/workspace`. -/
theorem underWorkspace_of_good (norm : List (List Char))
    (hgood : ∀ s ∈ norm, (s ≠ [] ∧ s ≠ ['.'] ∧ '/' ∉ s) ∧ s ≠ ['.', '.']) :
    underWorkspace ("/workspace/" ++ String.mk (joinWithChar '/' norm)) = true := by
  have hdata : ("/workspace/" ++ String.mk (joinWithChar '/' norm)).data
      = '/' :: ("workspace".data ++ '/' :: joinWithChar '/' norm) := by
    rw [String.data_append]
    rfl
  rw [underWorkspace, resolvePath, hdata]
  rw [show splitOnChar '/' ('/' :: ("workspace".data ++ '/' :: joinWithChar '/' norm))
      = [] :: splitOnChar '/' ("workspace".data ++ '/' :: joinWithChar '/' norm) from by
    rw [splitOnChar, if_pos rfl]]
  rw [splitOnChar_append_no_sep '/' "workspace".data _ (by decide)]
  cases hn : norm with
  | nil =>
    simp [joinWithChar, splitOnChar]
  | cons n0 nrest =>
    rw [← hn]
    rw [splitOnChar_joinWithChar '/' norm (by rw [hn]; simp)
      (fun part hp => (hgood part hp).1.2.2)]
    have hfilter : norm.filter (fun seg => seg ≠ [] && seg ≠ ['.']) = norm := by
      rw [List.filter_eq_self]
      intro a ha
      have := (hgood a ha).1
      simp [this.1, this.2.1]
    rw [List.filter_cons, List.filter_cons]
    simp only [show (([] : List Char) ≠ [] && ([] : List Char) ≠ ['.']) = false from rfl,
      show ("workspace".data ≠ [] && "workspace".data ≠ ['.']) = true from rfl,
      if_false, if_true, Bool.false_eq_true, hfilter]
    rw [foldl_no_dots ("workspace".data :: norm)
      (by
        intro s hs
        rcases List.mem_cons.mp hs with rfl | hmem
        · decide
        · exact (hgood s hmem).2) []]
    simp

/-- The normalizer never yields a file-tool path that resolves outside
`/workspace`, whatever the user path. -/
theorem clean_path_stays_under_workspace (path : String) :
    underWorkspace ("/workspace/" ++ clean_path path "/workspace") = true := by
  rw [clean_path]
  refine underWorkspace_of_good _ ?_
  refine foldl_clean_invariant _ _ ?_ [] (by simp)
  intro s hs
  have h1 := List.mem_filter.mp hs
  have h2 := mem_splitOnChar_no_sep '/' _ s h1.1
  have h3 := h1.2
  simp only [ne_eq, Bool.and_eq_true, decide_eq_true_eq] at h3
  exact ⟨h3.1, h3.2, h2⟩

/-! ### The claims -/

/-- C1: the claim that every file/shell tool resolves its path argument
through the PathNormalizer before any remote call — so that no request can
address a location strictly outside `/workspace` — fails on
`execute_command`: its `folder` argument is only stripped of slashes, never
passed through `clean_path`, so `folder = ".."` makes the tool issue
`cd /workspace/.. && ls`, whose working directory resolves outside the
workspace root, even though the normalizer keeps every file-tool path under
the root for every user input. -/
theorem C1_shell_folder_escapes_workspace :
    (∀ path : String,
      underWorkspace ("/workspace/" ++ clean_path path "/workspace") = true) ∧
    clean_path ".." "/workspace" = "" ∧
    resolved_cwd (some "..") = "/workspace/.." ∧
    underWorkspace (resolved_cwd (some "..")) = false ∧
    issued_command "ls" (some "..") = "cd /workspace/.. && ls" :=
  ⟨clean_path_stays_under_workspace, by decide, by decide, by decide, by decide⟩

/-- C2: for every input — including every fault behavior of the sandbox
SDK and of the (total) path normalizer — each public tool operation yields
exactly one `ToolResult`: an exception raised inside the operation's `try`
body is converted at the tool boundary into a failure result, and the code
outside the `try` bodies cannot raise. -/
theorem C2_every_tool_returns_one_result :
    (∀ (fl : Faults) (st : FSState) (p c : String),
      (∃ r, create_file_try fl st (clean_path p "/workspace") c = .ok r ∧
            create_file fl st p c = r) ∨
      (∃ e, create_file_try fl st (clean_path p "/workspace") c = .error e ∧
            create_file fl st p c = (st, fail_response ("Error creating file: " ++ e)))) ∧
    (∀ (fl : Faults) (st : FSState) (p c : String),
      (∃ r, full_file_rewrite_try fl st p c = .ok r ∧ full_file_rewrite fl st p c = r) ∨
      (∃ e, full_file_rewrite_try fl st p c = .error e ∧
            full_file_rewrite fl st p c =
              (st, fail_response ("Error rewriting file: " ++ e)))) ∧
    (∀ (fl : Faults) (st : FSState) (p o n : String),
      (∃ r, str_replace_try fl st p o n = .ok r ∧ str_replace fl st p o n = r) ∨
      (∃ e, str_replace_try fl st p o n = .error e ∧
            str_replace fl st p o n =
              (st, fail_response ("Error replacing string: " ++ e)))) ∧
    (∀ (fl : Faults) (st : FSState) (p : String),
      (∃ r, delete_file_try fl st p = .ok r ∧ delete_file fl st p = r) ∨
      (∃ e, delete_file_try fl st p = .error e ∧
            delete_file fl st p = (st, fail_response ("Error deleting file: " ++ e)))) ∧
    (∀ (pe : ProcEnv) (fresh : String) (st : ShellState) (cmd : String)
        (folder : Option String) (sn : String) (t : Int),
      (∃ r, execute_command_try pe fresh st cmd folder sn t = .ok r ∧
            execute_command pe fresh st cmd folder sn t = r) ∨
      (∃ e, execute_command_try pe fresh st cmd folder sn t = .error e ∧
            execute_command pe fresh st cmd folder sn t =
              ((ensure_session fresh st sn).1,
                fail_response ("Error executing command: " ++ e)))) ∧
    (∀ (env : ExposeEnv) (pv : PyVal),
      (∃ r, expose_port_try env pv = .ok r ∧ expose_port env pv = r) ∨
      (∃ e, expose_port_try env pv = .error e ∧
            expose_port env pv = fail_response ("Invalid port number: " ++ pv.show ++
              ". Must be a valid integer between 1 and 65535."))) ∧
    (∀ (env : DeployEnv) (nm dp : String),
      (∃ r, deploy_try env nm dp = .ok r ∧ deploy env nm dp = r) ∨
      (∃ e, deploy_try env nm dp = .error e ∧
            deploy env nm dp = fail_response ("Error deploying website: " ++ e))) := by
  refine ⟨?_, ?_, ?_, ?_, ?_, ?_, ?_⟩
  · intro fl st p c
    cases h : create_file_try fl st (clean_path p "/workspace") c with
    | ok r => exact .inl ⟨r, rfl, by rw [create_file]; rw [h]⟩
    | error e => exact .inr ⟨e, rfl, by rw [create_file]; rw [h]⟩
  · intro fl st p c
    cases h : full_file_rewrite_try fl st p c with
    | ok r => exact .inl ⟨r, rfl, by rw [full_file_rewrite]; rw [h]⟩
    | error e => exact .inr ⟨e, rfl, by rw [full_file_rewrite]; rw [h]⟩
  · intro fl st p o n
    cases h : str_replace_try fl st p o n with
    | ok r => exact .inl ⟨r, rfl, by rw [str_replace]; rw [h]⟩
    | error e => exact .inr ⟨e, rfl, by rw [str_replace]; rw [h]⟩
  · intro fl st p
    cases h : delete_file_try fl st p with
    | ok r => exact .inl ⟨r, rfl, by rw [delete_file]; rw [h]⟩
    | error e => exact .inr ⟨e, rfl, by rw [delete_file]; rw [h]⟩
  · intro pe fresh st cmd folder sn t
    cases h : execute_command_try pe fresh st cmd folder sn t with
    | ok r => exact .inl ⟨r, rfl, by rw [execute_command]; rw [h]⟩
    | error e => exact .inr ⟨e, rfl, by rw [execute_command]; rw [h]⟩
  · intro env pv
    cases h : expose_port_try env pv with
    | ok r => exact .inl ⟨r, rfl, by rw [expose_port]; rw [h]⟩
    | error e => exact .inr ⟨e, rfl, by rw [expose_port]; rw [h]⟩
  · intro env nm dp
    cases h : deploy_try env nm dp with
    | ok r => exact .inl ⟨r, rfl, by rw [deploy]; rw [h]⟩
    | error e => exact .inr ⟨e, rfl, by rw [deploy]; rw [h]⟩

/-- C3: when the target file exists and the tab-expanded old string occurs
exactly once in its content (Python counting), `str_replace` succeeds,
writing back the content with that single occurrence replaced by the
tab-expanded new string and byte-for-byte identical everywhere else. -/
theorem C3_str_replace_single_occurrence (st : FSState) (path old new content : String)
    (hfile : st.lookupFile ("/workspace/" ++ clean_path path "/workspace") = some content)
    (hone : pyCount content.data (expandtabsS old).data = 1) :
    str_replace noFaults st path old new =
      (st.writeFile ("/workspace/" ++ clean_path path "/workspace")
        (String.mk (pyReplace content.data (expandtabsS old).data (expandtabsS new).data)),
       success_response (.msg "Replacement successful")) ∧
    ∃ pre suf : List Char,
      content.data = pre ++ (expandtabsS old).data ++ suf ∧
      pyReplace content.data (expandtabsS old).data (expandtabsS new).data =
        pre ++ (expandtabsS new).data ++ suf :=
  ⟨str_replace_single_succeeds st path old new content hfile hone,
   pyReplace_single content.data _ _ hone⟩

/-- Witness for C3 at a concrete state and input. -/
theorem C3_str_replace_single_occurrence_witness :
    str_replace noFaults ⟨[("/workspace/f.txt", "one two three")]⟩ "f.txt" "two" "2" =
      (⟨[("/workspace/f.txt", "one 2 three")]⟩,
        success_response (.msg "Replacement successful")) := by
  have hrep : pyReplace "one two three".data (expandtabsS "two").data
      (expandtabsS "2").data = "one 2 three".data := by
    simp [pyReplace, replaceFrom, expandtabsS, expandtabs, expandtabsAux]
  have h := (C3_str_replace_single_occurrence ⟨[("/workspace/f.txt", "one two three")]⟩
    "f.txt" "two" "2" "one two three" (by decide)
    (by simp [pyCount, countFrom, expandtabsS, expandtabs, expandtabsAux])).1
  rw [hrep] at h
  exact h.trans (by decide)

/-- C4: `create_file` on an existing path fails with an "already exists"
error without mutating (hence create-then-create always fails the second
call), and `full_file_rewrite`, `str_replace` and `delete_file` on a
missing path fail with a "does not exist" error without mutating. -/
theorem C4_existence_preconditions :
    (∀ (st : FSState) (p c : String),
      st.hasFile ("/workspace/" ++ clean_path p "/workspace") = true →
      create_file noFaults st p c =
        (st, fail_response ("File '" ++ clean_path p "/workspace" ++ "' already exists"))) ∧
    (∀ (st : FSState) (p c1 c2 : String),
      (create_file noFaults (create_file noFaults st p c1).1 p c2).2 =
        fail_response ("File '" ++ clean_path p "/workspace" ++ "' already exists")) ∧
    (∀ (st : FSState) (p c : String),
      st.hasFile ("/workspace/" ++ clean_path p "/workspace") = false →
      full_file_rewrite noFaults st p c =
        (st, fail_response ("File '" ++ clean_path p "/workspace" ++ "' does not exist"))) ∧
    (∀ (st : FSState) (p o n : String),
      st.hasFile ("/workspace/" ++ clean_path p "/workspace") = false →
      str_replace noFaults st p o n =
        (st, fail_response ("File '" ++ clean_path p "/workspace" ++ "' does not exist"))) ∧
    (∀ (st : FSState) (p : String),
      st.hasFile ("/workspace/" ++ clean_path p "/workspace") = false →
      delete_file noFaults st p =
        (st, fail_response ("File '" ++ clean_path p "/workspace" ++ "' does not exist"))) := by
  refine ⟨create_file_exists_fails, ?_, full_file_rewrite_missing_fails,
    str_replace_missing_fails, delete_file_missing_fails⟩
  intro st p c1 c2
  by_cases hex : st.hasFile ("/workspace/" ++ clean_path p "/workspace") = true
  · rw [create_file_exists_fails st p c1 hex]
    rw [create_file_exists_fails st p c2 hex]
  · have hex' : st.hasFile ("/workspace/" ++ clean_path p "/workspace") = false := by
      simpa using hex
    rw [create_file_absent_writes st p c1 hex']
    rw [create_file_exists_fails _ p c2 (hasFile_writeFile_self st _ c1)]

/-- Witness for C4 at concrete states and paths. -/
theorem C4_existence_preconditions_witness :
    create_file noFaults ⟨[("/workspace/a.txt", "x")]⟩ "a.txt" "y" =
      (⟨[("/workspace/a.txt", "x")]⟩, fail_response "File 'a.txt' already exists") ∧
    (create_file noFaults (create_file noFaults ⟨[]⟩ "b.txt" "x").1 "b.txt" "y").2 =
      fail_response "File 'b.txt' already exists" ∧
    full_file_rewrite noFaults ⟨[]⟩ "c.txt" "z" =
      (⟨[]⟩, fail_response "File 'c.txt' does not exist") ∧
    str_replace noFaults ⟨[]⟩ "c.txt" "o" "n" =
      (⟨[]⟩, fail_response "File 'c.txt' does not exist") ∧
    delete_file noFaults ⟨[]⟩ "c.txt" =
      (⟨[]⟩, fail_response "File 'c.txt' does not exist") :=
  ⟨(C4_existence_preconditions.1 ⟨[("/workspace/a.txt", "x")]⟩ "a.txt" "y"
      (by decide)).trans (by decide),
   (C4_existence_preconditions.2.1 ⟨[]⟩ "b.txt" "x" "y").trans (by decide),
   (C4_existence_preconditions.2.2.1 ⟨[]⟩ "c.txt" "z" (by decide)).trans (by decide),
   (C4_existence_preconditions.2.2.2.1 ⟨[]⟩ "c.txt" "o" "n" (by decide)).trans (by decide),
   (C4_existence_preconditions.2.2.2.2 ⟨[]⟩ "c.txt" (by decide)).trans (by decide)⟩

/-- C5: when the tab-expanded old string occurs more than once, `str_replace`
fails with a message enumerating the 1-based numbers of exactly the lines
containing the string, and the file map is unchanged whatever the
environment's write behavior (no write is issued). -/
theorem C5_str_replace_multiple_matches (fl : Faults) (st : FSState)
    (path old new content : String)
    (hlist : fl.listF ("/workspace/" ++ clean_path path "/workspace") = none)
    (hread : fl.readF ("/workspace/" ++ clean_path path "/workspace") = none)
    (hfile : st.lookupFile ("/workspace/" ++ clean_path path "/workspace") = some content)
    (hmany : pyCount content.data (expandtabsS old).data > 1) :
    str_replace fl st path old new =
      (st, fail_response ("Multiple occurrences found in lines " ++
        pyReprNatList (matchLineNumbers content.data (expandtabsS old).data))) ∧
    ∀ n : Nat, n ∈ matchLineNumbers content.data (expandtabsS old).data ↔
      ∃ i : Nat, ∃ hi : i < (splitOnChar '\n' content.data).length,
        n = i + 1 ∧
          (expandtabsS old).data <:+: (splitOnChar '\n' content.data).get ⟨i, hi⟩ :=
  ⟨str_replace_multiple_fails fl st path old new content hlist hread hfile hmany,
   fun _ => mem_matchLineNumbers⟩

/-- Witness for C5 at a concrete two-line file. -/
theorem C5_str_replace_multiple_matches_witness :
    str_replace noFaults ⟨[("/workspace/m.txt", "foo\nbar foo")]⟩ "m.txt" "foo" "X" =
      (⟨[("/workspace/m.txt", "foo\nbar foo")]⟩,
        fail_response "Multiple occurrences found in lines [1, 2]") :=
  (C5_str_replace_multiple_matches noFaults ⟨[("/workspace/m.txt", "foo\nbar foo")]⟩
    "m.txt" "foo" "X" "foo\nbar foo" rfl rfl (by decide)
    (by simp [pyCount, countFrom, expandtabsS, expandtabs, expandtabsAux])).1.trans
    (by decide)

/-- C6: `execute_command` issues the single remote command
`cd <dir> && <command>` with `<dir>` the workspace root or the root plus the
optional folder; a zero exit code yields a success carrying stdout, the exit
code and the resolved directory, a non-zero exit code yields a failure whose
message carries the exit code with stderr appended when non-empty; and the
result depends on the environment only through that one process
invocation. -/
theorem C6_execute_command_contract :
    (∀ (cmd : String) (folder : Option String),
      issued_command cmd folder = "cd " ++ resolved_cwd folder ++ " && " ++ cmd) ∧
    resolved_cwd none = "/workspace" ∧
    (∀ f : String, f ≠ "" → resolved_cwd (some f) = "/workspace/" ++ stripSlashes f) ∧
    (∀ (pe : ProcEnv) (fresh : String) (st : ShellState) (cmd : String)
        (folder : Option String) (sn : String) (t : Int) (out : ProcOutput),
      pe.run (issued_command cmd folder) (resolved_cwd folder) t = .ok out →
      out.exit_code = 0 →
      execute_command pe fresh st cmd folder sn t =
        ((ensure_session fresh st sn).1,
          success_response (.exec out.stdout out.exit_code (resolved_cwd folder)))) ∧
    (∀ (pe : ProcEnv) (fresh : String) (st : ShellState) (cmd : String)
        (folder : Option String) (sn : String) (t : Int) (out : ProcOutput),
      pe.run (issued_command cmd folder) (resolved_cwd folder) t = .ok out →
      out.exit_code ≠ 0 → out.stderr ≠ "" →
      execute_command pe fresh st cmd folder sn t =
        ((ensure_session fresh st sn).1,
          fail_response ("Command failed with exit code " ++ toString out.exit_code ++
            ": " ++ out.stderr))) ∧
    (∀ (pe : ProcEnv) (fresh : String) (st : ShellState) (cmd : String)
        (folder : Option String) (sn : String) (t : Int) (out : ProcOutput),
      pe.run (issued_command cmd folder) (resolved_cwd folder) t = .ok out →
      out.exit_code ≠ 0 → out.stderr = "" →
      execute_command pe fresh st cmd folder sn t =
        ((ensure_session fresh st sn).1,
          fail_response ("Command failed with exit code " ++ toString out.exit_code))) ∧
    (∀ (pe pe' : ProcEnv) (fresh : String) (st : ShellState) (cmd : String)
        (folder : Option String) (sn : String) (t : Int),
      pe.run (issued_command cmd folder) (resolved_cwd folder) t =
        pe'.run (issued_command cmd folder) (resolved_cwd folder) t →
      execute_command pe fresh st cmd folder sn t =
        execute_command pe' fresh st cmd folder sn t) := by
  refine ⟨fun _ _ => rfl, rfl, ?_, execute_command_zero_exit,
    execute_command_nonzero_stderr, execute_command_nonzero_no_stderr, ?_⟩
  · intro f hf
    rw [resolved_cwd, if_neg hf]
  · intro pe pe' fresh st cmd folder sn t h
    rw [execute_command, execute_command, execute_command_try, execute_command_try, h]

/-- Witness for C6 with concrete process environments. -/
theorem C6_execute_command_contract_witness :
    execute_command ⟨fun _ _ _ => .ok ⟨0, "hi", ""⟩⟩ "id1" ⟨[]⟩ "echo hi" none "default" 60 =
      (⟨[("default", "id1")]⟩, success_response (.exec "hi" 0 "/workspace")) ∧
    execute_command ⟨fun _ _ _ => .ok ⟨1, "", "boom"⟩⟩ "id1" ⟨[]⟩ "exit 1" none "default" 60 =
      (⟨[("default", "id1")]⟩, fail_response "Command failed with exit code 1: boom") :=
  ⟨(C6_execute_command_contract.2.2.2.1 ⟨fun _ _ _ => .ok ⟨0, "hi", ""⟩⟩ "id1" ⟨[]⟩
      "echo hi" none "default" 60 ⟨0, "hi", ""⟩ rfl rfl).trans (by decide),
   (C6_execute_command_contract.2.2.2.2.1 ⟨fun _ _ _ => .ok ⟨1, "", "boom"⟩⟩ "id1" ⟨[]⟩
      "exit 1" none "default" 60 ⟨1, "", "boom"⟩ rfl (by decide) (by decide)).trans
      (by decide)⟩

/-- C7: `expose_port` validates `1 ≤ port ≤ 65535` before any remote call —
out-of-range integers and strings rejected by `int()` produce a descriptive
validation failure whose value does not depend on the sandbox environment —
and an in-range port is forwarded, returning the URL and the port on
success, or a failure wrapping the forwarding error. -/
theorem C7_expose_port_validation :
    (∀ (env : ExposeEnv) (n : Int), n < 1 ∨ n > 65535 →
      expose_port env (.vint n) =
        fail_response ("Invalid port number: " ++ toString n ++
          ". Must be between 1 and 65535.")) ∧
    (∀ (env : ExposeEnv) (s e : String), pyInt (.vstr s) = .error e →
      expose_port env (.vstr s) =
        fail_response ("Invalid port number: " ++ s ++
          ". Must be a valid integer between 1 and 65535.")) ∧
    (∀ (env : ExposeEnv) (n : Int) (url : String), 1 ≤ n → n ≤ 65535 →
      env.expose n = .ok url →
      expose_port env (.vint n) =
        success_response (.exposed url n
          ("Successfully exposed port " ++ toString n ++
            ". Access the service at: " ++ url))) ∧
    (∀ (env : ExposeEnv) (n : Int) (e : String), 1 ≤ n → n ≤ 65535 →
      env.expose n = .error e →
      expose_port env (.vint n) =
        fail_response ("Failed to expose port " ++ toString n ++ ": " ++ e)) :=
  ⟨expose_port_out_of_range, expose_port_non_integer,
   expose_port_forwards, expose_port_forward_error⟩

/-- Witness for C7 at the boundary ports, a non-numeric string and a
forwarded in-range port. -/
theorem C7_expose_port_validation_witness :
    expose_port ⟨fun _ => .ok "https://sbx.e2b.dev"⟩ (.vint 0) =
      fail_response "Invalid port number: 0. Must be between 1 and 65535." ∧
    expose_port ⟨fun _ => .ok "https://sbx.e2b.dev"⟩ (.vint 65536) =
      fail_response "Invalid port number: 65536. Must be between 1 and 65535." ∧
    expose_port ⟨fun _ => .ok "https://sbx.e2b.dev"⟩ (.vstr "abc") =
      fail_response "Invalid port number: abc. Must be a valid integer between 1 and 65535." ∧
    expose_port ⟨fun _ => .ok "https://8000-sbx.e2b.dev"⟩ (.vint 8000) =
      success_response (.exposed "https://8000-sbx.e2b.dev" 8000
        "Successfully exposed port 8000. Access the service at: https://8000-sbx.e2b.dev") :=
  ⟨(C7_expose_port_validation.1 ⟨fun _ => .ok "https://sbx.e2b.dev"⟩ 0
      (.inl (by decide))).trans (by decide),
   (C7_expose_port_validation.1 ⟨fun _ => .ok "https://sbx.e2b.dev"⟩ 65536
      (.inr (by decide))).trans (by decide),
   (C7_expose_port_validation.2.1 ⟨fun _ => .ok "https://sbx.e2b.dev"⟩ "abc"
      "invalid literal for int() with base 10: abc" rfl).trans (by decide),
   (C7_expose_port_validation.2.2.1 ⟨fun _ => .ok "https://8000-sbx.e2b.dev"⟩ 8000
      "https://8000-sbx.e2b.dev" (by decide) (by decide) rfl).trans (by decide)⟩

/-- C8: `deploy` fails (without crashing) when the API token is absent from
the environment; when it proceeds, the project name passed to the CLI is the
sandbox identifier joined to the requested name, and the operation returns
the CLI's stdout as the success payload, a failure when no output was
produced, and a failure wrapping any exception of the run. -/
theorem C8_deploy_contract :
    (∀ sid nm : String, deploy_project_name sid nm = sid ++ "-" ++ nm) ∧
    (∀ (env : DeployEnv) (nm dp : String) (files : List String),
      env.listDir ("/workspace/" ++ clean_path dp "/workspace") = .ok files →
      files ≠ [] → env.cloudflare_api_token = none →
      deploy env nm dp =
        fail_response "CLOUDFLARE_API_TOKEN environment variable not set") ∧
    (∀ (env : DeployEnv) (nm dp tok : String) (files : List String) (out : ProcOutput),
      env.listDir ("/workspace/" ++ clean_path dp "/workspace") = .ok files →
      files ≠ [] → env.cloudflare_api_token = some tok → tok ≠ "" →
      env.run (deploy_command tok ("/workspace/" ++ clean_path dp "/workspace")
        (deploy_project_name env.sandbox_id nm)) = .ok out →
      out.stdout ≠ "" →
      deploy env nm dp =
        success_response (.deployed "Website deployed successfully" out.stdout)) ∧
    (∀ (env : DeployEnv) (nm dp tok : String) (files : List String) (out : ProcOutput),
      env.listDir ("/workspace/" ++ clean_path dp "/workspace") = .ok files →
      files ≠ [] → env.cloudflare_api_token = some tok → tok ≠ "" →
      env.run (deploy_command tok ("/workspace/" ++ clean_path dp "/workspace")
        (deploy_project_name env.sandbox_id nm)) = .ok out →
      out.stdout = "" →
      deploy env nm dp = fail_response "Deployment failed: No output received") ∧
    (∀ (env : DeployEnv) (nm dp tok e : String) (files : List String),
      env.listDir ("/workspace/" ++ clean_path dp "/workspace") = .ok files →
      files ≠ [] → env.cloudflare_api_token = some tok → tok ≠ "" →
      env.run (deploy_command tok ("/workspace/" ++ clean_path dp "/workspace")
        (deploy_project_name env.sandbox_id nm)) = .error e →
      deploy env nm dp = fail_response ("Error during deployment: " ++ e)) :=
  ⟨fun _ _ => rfl, deploy_no_token, deploy_with_output,
   deploy_without_output, deploy_run_error⟩

/-- Witness for C8: a token-less environment fails, a token-bearing one
returns the CLI output. -/
theorem C8_deploy_contract_witness :
    deploy ⟨none, "sbx1", fun _ => .ok ["index.html"], fun _ => .ok ⟨0, "", ""⟩⟩
      "site" "web" =
      fail_response "CLOUDFLARE_API_TOKEN environment variable not set" ∧
    deploy ⟨some "tok", "sbx1", fun _ => .ok ["index.html"],
        fun _ => .ok ⟨0, "Deployment complete", ""⟩⟩ "site" "web" =
      success_response (.deployed "Website deployed successfully" "Deployment complete") :=
  ⟨C8_deploy_contract.2.1 ⟨none, "sbx1", fun _ => .ok ["index.html"],
      fun _ => .ok ⟨0, "", ""⟩⟩ "site" "web" ["index.html"] rfl (by decide) rfl,
   C8_deploy_contract.2.2.1 ⟨some "tok", "sbx1", fun _ => .ok ["index.html"],
      fun _ => .ok ⟨0, "Deployment complete", ""⟩⟩ "site" "web" "tok" ["index.html"]
      ⟨0, "Deployment complete", ""⟩ rfl (by decide) rfl (by decide) rfl (by decide)⟩

/-- C9: the session map of the command-execution tool assigns a fresh
identifier on the first use of a name, returns the same identifier on every
later use (whatever fresh value a later call would have drawn),
`cleanup` empties the map entirely, and the session identifier is never
passed into the remote execution call: the result of `execute_command` is
independent of the session name. -/
theorem C9_session_map_invariant :
    (∀ (fresh : String) (st : ShellState) (sn : String),
      lookupList st.sessions sn = none →
      ensure_session fresh st sn = (⟨st.sessions ++ [(sn, fresh)]⟩, fresh) ∧
      lookupList (st.sessions ++ [(sn, fresh)]) sn = some fresh) ∧
    (∀ (fresh : String) (st : ShellState) (sn sid : String),
      lookupList st.sessions sn = some sid →
      ensure_session fresh st sn = (st, sid)) ∧
    (∀ (fresh fresh' : String) (st : ShellState) (sn : String),
      ensure_session fresh' (ensure_session fresh st sn).1 sn =
        ((ensure_session fresh st sn).1, (ensure_session fresh st sn).2)) ∧
    (∀ st : ShellState, (cleanup st).sessions = []) ∧
    (∀ (pe : ProcEnv) (fresh : String) (st : ShellState) (cmd : String)
        (folder : Option String) (sn : String) (t : Int),
      (execute_command pe fresh st cmd folder sn t).1 = (ensure_session fresh st sn).1) ∧
    (∀ (pe : ProcEnv) (fresh : String) (st : ShellState) (cmd : String)
        (folder : Option String) (n1 n2 : String) (t : Int),
      (execute_command pe fresh st cmd folder n1 t).2 =
        (execute_command pe fresh st cmd folder n2 t).2) := by
  refine ⟨?_, ?_, ensure_session_stable, fun _ => rfl,
    execute_command_state, execute_command_indep_session⟩
  · intro fresh st sn h
    exact ⟨by simp [ensure_session, h], lookupList_append_self fresh h⟩
  · intro fresh st sn sid h
    simp [ensure_session, h]

/-- Witness for C9: a fresh identifier is created once and then observed. -/
theorem C9_session_map_invariant_witness :
    ensure_session "id1" ⟨[]⟩ "default" = (⟨[("default", "id1")]⟩, "id1") ∧
    lookupList [("default", "id1")] "default" = some "id1" ∧
    ensure_session "id2" ⟨[("default", "id1")]⟩ "default" =
      (⟨[("default", "id1")]⟩, "id1") ∧
    (cleanup ⟨[("default", "id1")]⟩).sessions = [] :=
  ⟨((C9_session_map_invariant.1 "id1" ⟨[]⟩ "default" (by decide)).1).trans (by decide),
   by decide,
   C9_session_map_invariant.2.1 "id2" ⟨[("default", "id1")]⟩ "default" "id1" (by decide),
   C9_session_map_invariant.2.2.2.1 ⟨[("default", "id1")]⟩⟩

/-- C10: `_file_exists` answers `false` whenever the underlying `list` call
raises (and when the listing is empty), so a transport error during the
existence check is not surfaced as such: `create_file` proceeds to write as
if the file were absent — even over an existing file — while
`full_file_rewrite`, `str_replace` and `delete_file` report a
"does not exist" precondition failure instead. -/
theorem C10_existence_check_swallows_errors :
    (∀ (fl : Faults) (st : FSState) (p e : String),
      fl.listF p = some e → file_exists_check fl st p = false) ∧
    (∀ (st : FSState) (p : String),
      st.hasFile p = false → file_exists_check noFaults st p = false) ∧
    (∀ (fl : Faults) (st : FSState) (p c e : String),
      fl.listF ("/workspace/" ++ clean_path p "/workspace") = some e →
      (∀ q, fl.writeDirF q = none) → (∀ q d, fl.writeF q d = none) →
      create_file fl st p c =
        (st.writeFile ("/workspace/" ++ clean_path p "/workspace") c,
          success_response (.msg ("File '" ++ clean_path p "/workspace" ++
            "' created successfully")))) ∧
    (∀ (fl : Faults) (st : FSState) (p c e : String),
      fl.listF ("/workspace/" ++ clean_path p "/workspace") = some e →
      full_file_rewrite fl st p c =
        (st, fail_response ("File '" ++ clean_path p "/workspace" ++
          "' does not exist"))) ∧
    (∀ (fl : Faults) (st : FSState) (p o n e : String),
      fl.listF ("/workspace/" ++ clean_path p "/workspace") = some e →
      str_replace fl st p o n =
        (st, fail_response ("File '" ++ clean_path p "/workspace" ++
          "' does not exist"))) ∧
    (∀ (fl : Faults) (st : FSState) (p e : String),
      fl.listF ("/workspace/" ++ clean_path p "/workspace") = some e →
      delete_file fl st p =
        (st, fail_response ("File '" ++ clean_path p "/workspace" ++
          "' does not exist"))) := by
  refine ⟨file_exists_check_fault, ?_, create_file_list_fault_writes,
    full_file_rewrite_list_fault, str_replace_list_fault, delete_file_list_fault⟩
  intro st p h
  rw [file_exists_check_noFaults]
  exact h

/-- Witness for C10 with a fault oracle whose `list` always raises: the
existing file is silently overwritten by `create_file` while the other
operations misreport it as missing. -/
theorem C10_existence_check_swallows_errors_witness :
    file_exists_check
      ⟨fun _ => some "connection reset", fun _ => none, fun _ _ => none,
        fun _ => none, fun _ => none⟩
      ⟨[("/workspace/a.txt", "old")]⟩ "/workspace/a.txt" = false ∧
    create_file
      ⟨fun _ => some "connection reset", fun _ => none, fun _ _ => none,
        fun _ => none, fun _ => none⟩
      ⟨[("/workspace/a.txt", "old")]⟩ "a.txt" "new" =
      (⟨[("/workspace/a.txt", "new")]⟩,
        success_response (.msg "File 'a.txt' created successfully")) ∧
    full_file_rewrite
      ⟨fun _ => some "connection reset", fun _ => none, fun _ _ => none,
        fun _ => none, fun _ => none⟩
      ⟨[("/workspace/a.txt", "old")]⟩ "a.txt" "new" =
      (⟨[("/workspace/a.txt", "old")]⟩, fail_response "File 'a.txt' does not exist") ∧
    delete_file
      ⟨fun _ => some "connection reset", fun _ => none, fun _ _ => none,
        fun _ => none, fun _ => none⟩
      ⟨[("/workspace/a.txt", "old")]⟩ "a.txt" =
      (⟨[("/workspace/a.txt", "old")]⟩, fail_response "File 'a.txt' does not exist") :=
  ⟨C10_existence_check_swallows_errors.1 _ ⟨[("/workspace/a.txt", "old")]⟩
      "/workspace/a.txt" "connection reset" rfl,
   (C10_existence_check_swallows_errors.2.2.1 _ ⟨[("/workspace/a.txt", "old")]⟩
      "a.txt" "new" "connection reset" rfl (fun _ => rfl) (fun _ _ => rfl)).trans
      (by decide),
   (C10_existence_check_swallows_errors.2.2.2.1 _ ⟨[("/workspace/a.txt", "old")]⟩
      "a.txt" "new" "connection reset" rfl).trans (by decide),
   (C10_existence_check_swallows_errors.2.2.2.2.2 _ ⟨[("/workspace/a.txt", "old")]⟩
      "a.txt" "connection reset" rfl).trans (by decide)⟩

end ManusMini
